import Mathlib

/-!
Verification of the concurrent input pipeline and supervision core of the
Friday repository, as a shallow embedding in Lean 4.

The embedding covers:
* `UnifiedMessage` and its two construction paths (`src/shared/message_schema.py`):
  the constructor `__init__` and the factory `create`;
* one iteration and a finite run of `listener_loop` (`src/main.py`, lines 26-61),
  with the channel controller flags, the listener-kind dispatch, the
  caught-and-logged capture error, and the forwarding gateway;
* the start and shutdown ordering of `main` (`src/main.py`, lines 82-215).

Impure library calls are made explicit: `uuid.uuid4()` becomes a fresh-name
supply threaded as a counter, `datetime.utcnow().isoformat()` becomes a `now`
string argument, and `time.sleep(d)` is recorded in a list of sleep durations
(in milliseconds) instead of being performed.
-/

namespace Friday

/-- Python truthiness of `x or d` when `x : Option String`: `None` and the
empty string are falsy, every other string is truthy.  This is the semantics
of `timestamp or default` in `UnifiedMessage.__init__`. -/
def pyStrOr (o : Option String) (d : String) : String :=
  match o with
  | none => d
  | some s => if s = "" then d else s

/-- Model of the `uuid.uuid4()` fresh-identifier supply.  The supply state is
a counter `n`; the `n`-th generated identifier is a nonempty string, distinct
for distinct `n` (uuid4 returns a fresh globally-unique identifier). -/
def uuidStr (n : Nat) : String :=
  String.replicate (n + 1) 'u'

theorem uuidStr_ne_empty (n : Nat) : uuidStr n ≠ "" := by
  intro h
  have hlen := congrArg String.length h
  simp [uuidStr] at hlen

theorem uuidStr_injective : Function.Injective uuidStr := by
  intro m n h
  have hlen := congrArg String.length h
  simpa [uuidStr] using hlen

/-- The Canonical Message shape (`UnifiedMessage`, src/shared/message_schema.py).
`raw_payload` is opaque to this core, hence the type parameter. -/
structure UnifiedMessage (α : Type) where
  engine_source : String
  input_type : String
  raw_payload : α
  timestamp : String
  source_device : String
  confidence : Rat
  privacy_flag : Bool
  session_id : String
  payload_type : String

/-- `UnifiedMessage.__init__` (src/shared/message_schema.py, lines 13-33).
The Python defaults are `timestamp = None`, `source_device = "unknown"`,
`confidence = 1.0`, `privacy_flag = False`, `session_id = None`,
`payload_type = "string"`; a caller that relies on a default passes that value
here explicitly.  `now` is `datetime.utcnow().isoformat()` and `gen` is the
state of the `uuid.uuid4()` supply; the second component of the result is the
supply state after construction (`uuid.uuid4()` is evaluated only when
`session_id` is falsy, by Python `or` short-circuiting). -/
def UnifiedMessage.init {α : Type} (engine_source : String) (input_type : String)
    (raw_payload : α) (timestamp : Option String) (source_device : String)
    (confidence : Rat) (privacy_flag : Bool) (session_id : Option String)
    (payload_type : String) (now : String) (gen : Nat) :
    UnifiedMessage α × Nat :=
  let sid : String × Nat :=
    match session_id with
    | none => (uuidStr gen, gen + 1)
    | some s => if s = "" then (uuidStr gen, gen + 1) else (s, gen)
  (⟨engine_source, input_type, raw_payload, pyStrOr timestamp now,
    source_device, confidence, privacy_flag, sid.1, payload_type⟩, sid.2)

/-- `UnifiedMessage.create` (src/shared/message_schema.py, lines 35-60): the
convenience factory.  It infers `payload_type` from `input_type`
(`audio` gives `binary`; `event` and `signal` give `dict`; anything else gives
`string`) and passes the constructor defaults for every remaining field. -/
def UnifiedMessage.create {α : Type} (input_type : String) (raw_payload : α)
    (source_device : String) (engine_source : String) (now : String) (gen : Nat) :
    UnifiedMessage α × Nat :=
  let payload_type : String :=
    if input_type = "audio" then "binary"
    else if input_type = "event" ∨ input_type = "signal" then "dict"
    else "string"
  UnifiedMessage.init engine_source input_type raw_payload none source_device
    1 false none payload_type now gen

/-- C1: for every message built via the factory `UnifiedMessage.create`,
`payload_type` is derived deterministically from `input_type`: `audio` gives
`binary`; `event` or `signal` gives `dict`; every other `input_type` gives
`string`. -/
theorem create_payload_type_derivation {α : Type} (input_type : String)
    (raw_payload : α) (source_device engine_source now : String) (gen : Nat) :
    (input_type = "audio" →
      ((UnifiedMessage.create input_type raw_payload source_device engine_source
        now gen).1).payload_type = "binary") ∧
    ((input_type = "event" ∨ input_type = "signal") →
      ((UnifiedMessage.create input_type raw_payload source_device engine_source
        now gen).1).payload_type = "dict") ∧
    ((input_type ≠ "audio" ∧ input_type ≠ "event" ∧ input_type ≠ "signal") →
      ((UnifiedMessage.create input_type raw_payload source_device engine_source
        now gen).1).payload_type = "string") := by
  refine ⟨fun h => ?_, fun h => ?_, fun h => ?_⟩
  · subst h; rfl
  · rcases h with h | h <;> subst h <;> rfl
  · simp [UnifiedMessage.create, UnifiedMessage.init, h.1, h.2.1, h.2.2]

/-- C2 counterexample: constructing a `UnifiedMessage` directly through the
constructor with `input_type = "audio"` and the constructor's own default
`payload_type = "string"` yields a message with `input_type = "audio"` and
`payload_type = "string"`: the derivation invariant does not hold on the
direct `__init__` construction path. -/
theorem init_audio_string_payload_counterexample :
    ((UnifiedMessage.init "ENGINE_001" "audio" (0 : Nat) none "unknown"
        1 false none "string" "t0" 0).1).input_type = "audio" ∧
    ((UnifiedMessage.init "ENGINE_001" "audio" (0 : Nat) none "unknown"
        1 false none "string" "t0" 0).1).payload_type = "string" :=
  ⟨rfl, rfl⟩

/-- C2 amended: the `payload_type` derivation is guaranteed only on the
factory path: a message built via `create` with `input_type = "audio"` always
carries `payload_type = "binary"` (never `"string"`), while the constructor
`__init__` stores whatever `payload_type` argument it receives (default
`"string"`) without enforcing the derivation. -/
theorem payload_type_invariant_create_only {α : Type} (raw_payload : α)
    (source_device engine_source now : String) (gen : Nat)
    (engine_source2 input_type2 : String) (raw_payload2 : α)
    (timestamp2 : Option String) (source_device2 : String) (confidence2 : Rat)
    (privacy_flag2 : Bool) (session_id2 : Option String)
    (payload_type2 now2 : String) (gen2 : Nat) :
    ((UnifiedMessage.create "audio" raw_payload source_device engine_source
      now gen).1).payload_type = "binary" ∧
    ((UnifiedMessage.init engine_source2 input_type2 raw_payload2 timestamp2
      source_device2 confidence2 privacy_flag2 session_id2 payload_type2
      now2 gen2).1).payload_type = payload_type2 :=
  ⟨rfl, rfl⟩

/-- C9: a `UnifiedMessage` constructed without an explicit `session_id` gets a
freshly generated nonempty identifier, and two independent such constructions
(the second using the supply state left by the first) yield distinct
`session_id` values. -/
theorem fresh_session_ids_distinct {α : Type}
    (es1 it1 : String) (p1 : α) (ts1 : Option String) (sd1 : String)
    (cf1 : Rat) (pf1 : Bool) (pt1 now1 : String)
    (es2 it2 : String) (p2 : α) (ts2 : Option String) (sd2 : String)
    (cf2 : Rat) (pf2 : Bool) (pt2 now2 : String) (gen : Nat) :
    (UnifiedMessage.init es1 it1 p1 ts1 sd1 cf1 pf1 none pt1 now1 gen).1.session_id ≠ "" ∧
    (UnifiedMessage.init es2 it2 p2 ts2 sd2 cf2 pf2 none pt2 now2
      (UnifiedMessage.init es1 it1 p1 ts1 sd1 cf1 pf1 none pt1 now1 gen).2).1.session_id ≠ "" ∧
    (UnifiedMessage.init es1 it1 p1 ts1 sd1 cf1 pf1 none pt1 now1 gen).1.session_id ≠
      (UnifiedMessage.init es2 it2 p2 ts2 sd2 cf2 pf2 none pt2 now2
        (UnifiedMessage.init es1 it1 p1 ts1 sd1 cf1 pf1 none pt1 now1 gen).2).1.session_id := by
  refine ⟨uuidStr_ne_empty gen, uuidStr_ne_empty (gen + 1), fun h => ?_⟩
  have h2 : uuidStr gen = uuidStr (gen + 1) := h
  exact Nat.succ_ne_self gen (uuidStr_injective h2).symm

/-- C10: the constructor treats any falsy `session_id` argument (`None` or the
empty string) as unsupplied and substitutes a freshly generated identifier, so
the resulting `session_id` is always nonempty; in particular an explicitly
supplied empty `session_id` never survives construction. -/
theorem falsy_session_id_replaced {α : Type} (es it : String) (p : α)
    (ts : Option String) (sd : String) (cf : Rat) (pf : Bool)
    (sid : Option String) (pt now : String) (gen : Nat) :
    (UnifiedMessage.init es it p ts sd cf pf sid pt now gen).1.session_id ≠ "" ∧
    ((sid = none ∨ sid = some "") →
      (UnifiedMessage.init es it p ts sd cf pf sid pt now gen).1.session_id =
        uuidStr gen) := by
  constructor
  · match sid with
    | none => exact uuidStr_ne_empty gen
    | some s =>
        by_cases hs : s = ""
        · simpa [UnifiedMessage.init, hs] using uuidStr_ne_empty gen
        · simp [UnifiedMessage.init, hs]
  · rintro (h | h) <;> subst h <;> rfl

/-- The four listener kinds (`TextListener`, `AudioListener`, `EventListener`,
`SignalListener`), the classes `listener_loop` dispatches on with
`isinstance`. -/
inductive ListenerKind
  | text
  | audio
  | event
  | signal
deriving DecidableEq

/-- Python class name of each listener kind, as printed by
`listener.__class__.__name__` in the error log of `listener_loop`. -/
def className : ListenerKind → String
  | .text => "TextListener"
  | .audio => "AudioListener"
  | .event => "EventListener"
  | .signal => "SignalListener"

/-- The Channel Controller state read by every listener loop: the master
`engine_on` flag and one enable flag per channel kind (the `UIGController`
attributes that `src/main.py` reads on lines 31-44). -/
structure Controller where
  engine_on : Bool
  text_enabled : Bool
  audio_enabled : Bool
  events_enabled : Bool
  signals_enabled : Bool
deriving DecidableEq

/-- The enable flag `listener_loop` consults for a listener of the given kind
(the `isinstance` dispatch on lines 33-44 of src/main.py). -/
def channelEnabled (kind : ListenerKind) (c : Controller) : Bool :=
  match kind with
  | .text => c.text_enabled
  | .audio => c.audio_enabled
  | .event => c.events_enabled
  | .signal => c.signals_enabled

/-- Outcome of one `listener.listen()` call: a normal return carrying an
optional capture (`None` means absent), or a raised exception carrying its
message text. -/
inductive ListenResult (α : Type)
  | ok : Option α → ListenResult α
  | exn : String → ListenResult α

/-- Modelled from the spec: the `UIGGateway` class lives outside src/, so its
`forward` behavior is taken from spec sections 4.3 and 9: forwarding is
fire-and-forget from the caller's perspective; when the downstream consumer is
available the message is delivered, and when it is unavailable the call fails
silently but observably, incrementing a failure counter instead of raising. -/
structure Gateway (β : Type) where
  downstreamUp : Bool
  delivered : List β
  failCount : Nat
deriving DecidableEq

/-- Modelled from the spec: `UIGGateway.forward` (spec sections 4.3 and 9). -/
def Gateway.forward {β : Type} (g : Gateway β) (m : β) : Gateway β :=
  if g.downstreamUp then { g with delivered := g.delivered ++ [m] }
  else { g with failCount := g.failCount + 1 }

/-- Observable outcome of one iteration of `listener_loop`: whether the loop
exited (the `while controller.engine_on` test failed), the gateway state after
the iteration, the lines printed, and the `time.sleep` durations performed,
in milliseconds. -/
structure IterOutcome (β : Type) where
  exited : Bool
  gateway : Gateway β
  log : List String
  sleeps : List Nat
deriving DecidableEq

/-- One iteration of `listener_loop` (src/main.py, lines 31-61).  The loop
condition `while controller.engine_on` is tested first; a disabled channel
sleeps 0.1 s (100 ms) and re-polls; otherwise `listener.listen()` is run under
`try`: a raised exception is caught, printed with the listener's class name,
and the loop continues; an absent capture (`None`) continues immediately; a
present capture is normalized, forwarded to the gateway, and followed by a
0.05 s (50 ms) sleep.  The `listen` outcome is passed in as `r`; `normalize`
stands for `normalizer.normalize`. -/
def listenerIter {α β : Type} (kind : ListenerKind) (ctrl : Controller)
    (r : ListenResult α) (normalize : α → β) (g : Gateway β) : IterOutcome β :=
  if ctrl.engine_on then
    if channelEnabled kind ctrl then
      match r with
      | .exn e =>
          ⟨false, g, ["[Listener Error] " ++ className kind ++ ": " ++ e], []⟩
      | .ok none => ⟨false, g, [], []⟩
      | .ok (some cap) => ⟨false, g.forward (normalize cap), [], [50]⟩
    else ⟨false, g, [], [100]⟩
  else ⟨true, g, [], []⟩

/-- Result of running `listener_loop` over a finite trace of environment
inputs: the final gateway state, the concatenated log, and the number of loop
bodies executed before the loop exited or the trace ended. -/
structure RunResult (β : Type) where
  gateway : Gateway β
  log : List String
  iterations : Nat
deriving DecidableEq

/-- A finite run of `listener_loop`: each trace element supplies the
controller flags the iteration reads and the outcome of its
`listener.listen()` call.  The run stops as soon as an iteration exits
(`engine_on` read false); remaining trace elements are never consulted. -/
def listenerRun {α β : Type} (kind : ListenerKind) (normalize : α → β) :
    List (Controller × ListenResult α) → Gateway β → RunResult β
  | [], g => ⟨g, [], 0⟩
  | (c, r) :: rest, g =>
    let o := listenerIter kind c r normalize g
    if o.exited then ⟨o.gateway, o.log, 0⟩
    else
      let rr := listenerRun kind normalize rest o.gateway
      ⟨rr.gateway, o.log ++ rr.log, rr.iterations + 1⟩

theorem listenerIter_disabled {α β : Type} (kind : ListenerKind)
    (c : Controller) (r : ListenResult α) (normalize : α → β) (g : Gateway β)
    (hOn : c.engine_on = true) (hEn : channelEnabled kind c = false) :
    listenerIter kind c r normalize g = ⟨false, g, [], [100]⟩ := by
  simp [listenerIter, hOn, hEn]

theorem listenerIter_exit {α β : Type} (kind : ListenerKind)
    (c : Controller) (r : ListenResult α) (normalize : α → β) (g : Gateway β)
    (hOff : c.engine_on = false) :
    listenerIter kind c r normalize g = ⟨true, g, [], []⟩ := by
  simp [listenerIter, hOff]

/-- C3: an iteration in which `listener.listen()` raises is recovered: the
exception is caught, a line naming the listener's class is printed, nothing is
forwarded, and the loop goes on to process the rest of its trace exactly as if
this cycle had produced nothing (the exception never terminates the loop). -/
theorem listener_error_recovered {α β : Type} (kind : ListenerKind)
    (c : Controller) (e : String) (normalize : α → β) (g : Gateway β)
    (rest : List (Controller × ListenResult α))
    (hOn : c.engine_on = true) (hEn : channelEnabled kind c = true) :
    listenerIter kind c (.exn e) normalize g =
      ⟨false, g, ["[Listener Error] " ++ className kind ++ ": " ++ e], []⟩ ∧
    listenerRun kind normalize ((c, .exn e) :: rest) g =
      ⟨(listenerRun kind normalize rest g).gateway,
       ("[Listener Error] " ++ className kind ++ ": " ++ e) ::
         (listenerRun kind normalize rest g).log,
       (listenerRun kind normalize rest g).iterations + 1⟩ := by
  constructor
  · simp [listenerIter, hOn, hEn]
  · simp [listenerRun, listenerIter, hOn, hEn]

/-- Controller with the master flag and all four channel flags on, the
steady-state configuration `main` starts every loop in. -/
def ctrlAllOn : Controller := ⟨true, true, true, true, true⟩

/-- Controller read after shutdown began: `engine_on` is false. -/
def ctrlAllOff : Controller := ⟨false, true, true, true, true⟩

/-- Controller with the text channel disabled but the engine running. -/
def ctrlTextOff : Controller := ⟨true, false, true, true, true⟩

/-- Gateway whose downstream consumer is reachable, with no traffic yet. -/
def gatewayUp : Gateway Nat := ⟨true, [], 0⟩

/-- Gateway whose downstream consumer is unavailable, with no traffic yet. -/
def gatewayDown : Gateway Nat := ⟨false, [], 0⟩

theorem listener_error_recovered_witness :
    listenerIter ListenerKind.text ctrlAllOn (ListenResult.exn "boom")
      (fun n : Nat => n) gatewayUp =
      ⟨false, gatewayUp,
       ["[Listener Error] " ++ className ListenerKind.text ++ ": " ++ "boom"],
       []⟩ ∧
    listenerRun ListenerKind.text (fun n : Nat => n)
      [(ctrlAllOn, ListenResult.exn "boom")] gatewayUp =
      ⟨(listenerRun ListenerKind.text (fun n : Nat => n) [] gatewayUp).gateway,
       ("[Listener Error] " ++ className ListenerKind.text ++ ": " ++ "boom") ::
         (listenerRun ListenerKind.text (fun n : Nat => n) [] gatewayUp).log,
       (listenerRun ListenerKind.text (fun n : Nat => n) [] gatewayUp).iterations
         + 1⟩ :=
  listener_error_recovered ListenerKind.text ctrlAllOn "boom"
    (fun n : Nat => n) gatewayUp [] rfl rfl

/-- C4 counterexample: in an iteration in which the channel is enabled and
`listen()` returns absent (`None`), the loop continues (it does not exit) but
performs no sleep at all — the absent path reaches `continue` before the
`time.sleep(0.05)` line, so no delay precedes the next cycle. -/
theorem absent_no_delay_counterexample :
    (listenerIter ListenerKind.text ctrlAllOn (ListenResult.ok (none : Option Nat))
      (fun n : Nat => n) gatewayUp).exited = false ∧
    (listenerIter ListenerKind.text ctrlAllOn (ListenResult.ok (none : Option Nat))
      (fun n : Nat => n) gatewayUp).sleeps = [] :=
  ⟨rfl, rfl⟩

/-- C4 amended: in an enabled iteration an absent capture makes the loop
continue immediately to the next cycle, with no forwarding, no log and no
delay; a returned capture is normalized and forwarded, and a 0.05 s delay
precedes the next cycle. -/
theorem iter_absent_and_capture {α β : Type} (kind : ListenerKind)
    (c : Controller) (normalize : α → β) (g : Gateway β) (cap : α)
    (hOn : c.engine_on = true) (hEn : channelEnabled kind c = true) :
    listenerIter kind c (.ok none) normalize g = ⟨false, g, [], []⟩ ∧
    listenerIter kind c (.ok (some cap)) normalize g =
      ⟨false, g.forward (normalize cap), [], [50]⟩ := by
  constructor <;> simp [listenerIter, hOn, hEn]

theorem iter_absent_and_capture_witness :
    listenerIter ListenerKind.text ctrlAllOn (ListenResult.ok none)
      (fun n : Nat => n) gatewayUp = ⟨false, gatewayUp, [], []⟩ ∧
    listenerIter ListenerKind.text ctrlAllOn (ListenResult.ok (some 7))
      (fun n : Nat => n) gatewayUp =
      ⟨false, gatewayUp.forward ((fun n : Nat => n) 7), [], [50]⟩ :=
  iter_absent_and_capture ListenerKind.text ctrlAllOn (fun n : Nat => n)
    gatewayUp 7 rfl rfl

/-- C5: when the gateway's downstream consumer is unavailable, forwarding a
captured message records the failure in the gateway's counter, delivers
nothing, and does not propagate to the listener loop: the iteration does not
exit and the run goes on to process the rest of its trace. -/
theorem forward_failure_not_propagated {α β : Type} (kind : ListenerKind)
    (c : Controller) (cap : α) (normalize : α → β) (g : Gateway β)
    (rest : List (Controller × ListenResult α))
    (hOn : c.engine_on = true) (hEn : channelEnabled kind c = true)
    (hDown : g.downstreamUp = false) :
    (listenerIter kind c (.ok (some cap)) normalize g).exited = false ∧
    (listenerIter kind c (.ok (some cap)) normalize g).gateway.failCount =
      g.failCount + 1 ∧
    (listenerIter kind c (.ok (some cap)) normalize g).gateway.delivered =
      g.delivered ∧
    (listenerRun kind normalize ((c, .ok (some cap)) :: rest) g).iterations =
      (listenerRun kind normalize rest
        (g.forward (normalize cap))).iterations + 1 := by
  refine ⟨?_, ?_, ?_, ?_⟩ <;>
    simp [listenerRun, listenerIter, Gateway.forward, hOn, hEn, hDown]

theorem forward_failure_not_propagated_witness :
    (listenerIter ListenerKind.text ctrlAllOn (ListenResult.ok (some 7))
      (fun n : Nat => n) gatewayDown).exited = false ∧
    (listenerIter ListenerKind.text ctrlAllOn (ListenResult.ok (some 7))
      (fun n : Nat => n) gatewayDown).gateway.failCount =
      gatewayDown.failCount + 1 ∧
    (listenerIter ListenerKind.text ctrlAllOn (ListenResult.ok (some 7))
      (fun n : Nat => n) gatewayDown).gateway.delivered =
      gatewayDown.delivered ∧
    (listenerRun ListenerKind.text (fun n : Nat => n)
      [(ctrlAllOn, ListenResult.ok (some 7))] gatewayDown).iterations =
      (listenerRun ListenerKind.text (fun n : Nat => n) []
        (gatewayDown.forward ((fun n : Nat => n) 7))).iterations + 1 :=
  forward_failure_not_propagated ListenerKind.text ctrlAllOn 7
    (fun n : Nat => n) gatewayDown [] rfl rfl rfl

/-- C6: while a listener's channel flag is disabled (and the engine is on),
a run touches the gateway not at all — no message of that channel reaches it —
yet keeps iterating (the loop does not exit or restart); a disabled iteration
does not even consult the listen outcome; and when the flag is enabled again,
the same uninterrupted run forwards a fresh capture to the gateway. -/
theorem disabled_channel_gates_forwarding {α β : Type} (kind : ListenerKind)
    (normalize : α → β) (pre : List (Controller × ListenResult α))
    (c2 : Controller) (cap : α) (g : Gateway β)
    (hpre : ∀ p ∈ pre, p.1.engine_on = true ∧ channelEnabled kind p.1 = false)
    (hOn : c2.engine_on = true) (hEn : channelEnabled kind c2 = true) :
    (listenerRun kind normalize pre g).gateway = g ∧
    (listenerRun kind normalize pre g).iterations = pre.length ∧
    (listenerRun kind normalize (pre ++ [(c2, .ok (some cap))]) g).gateway =
      g.forward (normalize cap) ∧
    (∀ (c : Controller) (r r' : ListenResult α) (g' : Gateway β),
      c.engine_on = true → channelEnabled kind c = false →
      listenerIter kind c r normalize g' = listenerIter kind c r' normalize g') := by
  have main : (listenerRun kind normalize pre g).gateway = g ∧
      (listenerRun kind normalize pre g).iterations = pre.length ∧
      (listenerRun kind normalize (pre ++ [(c2, .ok (some cap))]) g).gateway =
        g.forward (normalize cap) := by
    induction pre with
    | nil =>
        refine ⟨rfl, rfl, ?_⟩
        simp [listenerRun, listenerIter, hOn, hEn]
    | cons p ps ih =>
        obtain ⟨c1, r1⟩ := p
        have hp := hpre (c1, r1) (List.mem_cons_self _ _)
        have hrec := ih fun q hq => hpre q (List.mem_cons_of_mem _ hq)
        have hd := listenerIter_disabled kind c1 r1 normalize g hp.1 hp.2
        refine ⟨?_, ?_, ?_⟩ <;>
          simp [listenerRun, hd, hrec.1, hrec.2.1, hrec.2.2]
  refine ⟨main.1, main.2.1, main.2.2, fun c r r' g' hcOn hcEn => ?_⟩
  rw [listenerIter_disabled kind c r normalize g' hcOn hcEn,
    listenerIter_disabled kind c r' normalize g' hcOn hcEn]

theorem disabled_channel_gates_forwarding_witness :
    (listenerRun ListenerKind.text (fun n : Nat => n)
      [(ctrlTextOff, ListenResult.ok (some 5))] gatewayUp).gateway = gatewayUp ∧
    (listenerRun ListenerKind.text (fun n : Nat => n)
      [(ctrlTextOff, ListenResult.ok (some 5))] gatewayUp).iterations =
      [(ctrlTextOff, ListenResult.ok (some 5))].length ∧
    (listenerRun ListenerKind.text (fun n : Nat => n)
      ([(ctrlTextOff, ListenResult.ok (some 5))] ++
        [(ctrlAllOn, ListenResult.ok (some 7))]) gatewayUp).gateway =
      gatewayUp.forward ((fun n : Nat => n) 7) ∧
    (∀ (c : Controller) (r r' : ListenResult Nat) (g' : Gateway Nat),
      c.engine_on = true → channelEnabled ListenerKind.text c = false →
      listenerIter ListenerKind.text c r (fun n : Nat => n) g' =
        listenerIter ListenerKind.text c r' (fun n : Nat => n) g') :=
  disabled_channel_gates_forwarding ListenerKind.text (fun n : Nat => n)
    [(ctrlTextOff, ListenResult.ok (some 5))] ctrlAllOn 7 gatewayUp
    (by decide) rfl rfl

/-- C7: a run whose trace reads `engine_on = false` at some cycle boundary
stops there: the remainder of the trace is never consulted (the run equals the
run truncated right after that reading), the gateway is exactly what the
iterations before the reading left — no message is produced or forwarded at or
after termination — and no more loop bodies than the preceding cycles are
executed. -/
theorem engine_off_terminates {α β : Type} (kind : ListenerKind)
    (normalize : α → β) (pre post : List (Controller × ListenResult α))
    (c : Controller) (r : ListenResult α) (g : Gateway β)
    (hOff : c.engine_on = false) :
    listenerRun kind normalize (pre ++ (c, r) :: post) g =
      listenerRun kind normalize (pre ++ [(c, r)]) g ∧
    (listenerRun kind normalize (pre ++ (c, r) :: post) g).gateway =
      (listenerRun kind normalize pre g).gateway ∧
    (listenerRun kind normalize (pre ++ (c, r) :: post) g).iterations ≤
      pre.length := by
  induction pre generalizing g with
  | nil =>
      have hx := listenerIter_exit kind c r normalize g hOff
      refine ⟨?_, ?_, ?_⟩ <;> simp [listenerRun, hx]
  | cons p ps ih =>
      obtain ⟨c1, r1⟩ := p
      by_cases h1 : (listenerIter kind c1 r1 normalize g).exited = true
      · refine ⟨?_, ?_, ?_⟩ <;> simp [listenerRun, h1]
      · have ihg := ih (listenerIter kind c1 r1 normalize g).gateway
        refine ⟨?_, ?_, ?_⟩
        · simp [listenerRun, h1, ihg.1]
        · simp [listenerRun, h1, ihg.2.1]
        · have h3 := ihg.2.2
          simp [listenerRun, h1]
          omega

theorem engine_off_terminates_witness :
    listenerRun ListenerKind.text (fun n : Nat => n)
      ([(ctrlAllOn, ListenResult.ok (some 5))] ++
        (ctrlAllOff, ListenResult.ok (some 7)) ::
          [(ctrlAllOn, ListenResult.ok (some 8))]) gatewayUp =
      listenerRun ListenerKind.text (fun n : Nat => n)
        ([(ctrlAllOn, ListenResult.ok (some 5))] ++
          [(ctrlAllOff, ListenResult.ok (some 7))]) gatewayUp ∧
    (listenerRun ListenerKind.text (fun n : Nat => n)
      ([(ctrlAllOn, ListenResult.ok (some 5))] ++
        (ctrlAllOff, ListenResult.ok (some 7)) ::
          [(ctrlAllOn, ListenResult.ok (some 8))]) gatewayUp).gateway =
      (listenerRun ListenerKind.text (fun n : Nat => n)
        [(ctrlAllOn, ListenResult.ok (some 5))] gatewayUp).gateway ∧
    (listenerRun ListenerKind.text (fun n : Nat => n)
      ([(ctrlAllOn, ListenResult.ok (some 5))] ++
        (ctrlAllOff, ListenResult.ok (some 7)) ::
          [(ctrlAllOn, ListenResult.ok (some 8))]) gatewayUp).iterations ≤
      [(ctrlAllOn, ListenResult.ok (some 5))].length :=
  engine_off_terminates ListenerKind.text (fun n : Nat => n)
    [(ctrlAllOn, ListenResult.ok (some 5))]
    [(ctrlAllOn, ListenResult.ok (some 8))] ctrlAllOff
    (ListenResult.ok (some 7)) gatewayUp rfl

/-- The supervised subsystems whose `start()` and `stop()` calls `main`
(src/main.py) makes: engines 003 (perception), 004 (session), 005
(understanding), 006 (signal classifier) and the Mother Engine (002). -/
inductive EngineId
  | engine003
  | engine004
  | engine005
  | engine006
  | motherEngine
deriving DecidableEq

/-- Order of the subsystem `start()` calls `main` makes during startup
(src/main.py, lines 89-125): engines 003, 004, 005, 006, then the Mother
Engine. -/
def startOrder : List EngineId :=
  [.engine003, .engine004, .engine005, .engine006, .motherEngine]

/-- One observable shutdown action of `main`: clearing the master run flag, or
a `stop()` call on one supervised subsystem. -/
inductive ShutdownAction
  | setEngineOff
  | stopEngine (e : EngineId)
deriving DecidableEq

/-- The shutdown sequence `main` performs on KeyboardInterrupt (src/main.py,
lines 187-207): it sets `controller.engine_on = False`, then calls `stop()` on
engines 006, 005, 004, 003 and finally on the Mother Engine. -/
def shutdownSequence : List ShutdownAction :=
  [.setEngineOff, .stopEngine .engine006, .stopEngine .engine005,
   .stopEngine .engine004, .stopEngine .engine003, .stopEngine .motherEngine]

/-- The order of the `stop()` calls within the shutdown sequence. -/
def stopOrder : List EngineId :=
  shutdownSequence.filterMap fun a =>
    match a with
    | .setEngineOff => none
    | .stopEngine e => some e

/-- C8 counterexample: the stop order of `main` is not the reverse of its
start order, and the pair (engine 006, Mother Engine) violates the pairwise
property: engine 006 was started before the Mother Engine, yet engine 006 is
also stopped before it — the Mother Engine, started last, is stopped last. -/
theorem shutdown_not_reverse_counterexample :
    stopOrder ≠ startOrder.reverse ∧
    List.indexOf EngineId.engine006 startOrder <
      List.indexOf EngineId.motherEngine startOrder ∧
    List.indexOf EngineId.engine006 stopOrder <
      List.indexOf EngineId.motherEngine stopOrder := by
  decide

/-- C8 amended: during shutdown `main` first sets `engine_on = false`, and
then stops engines 006, 005, 004, 003 — the strict reverse of their start
order — but stops the Mother Engine last of all, although it was started after
engines 003 through 006. -/
theorem shutdown_order_engine_off_first :
    shutdownSequence =
      ShutdownAction.setEngineOff :: stopOrder.map ShutdownAction.stopEngine ∧
    stopOrder = (startOrder.take 4).reverse ++ [EngineId.motherEngine] ∧
    startOrder.getLast? = some EngineId.motherEngine := by
  decide

end Friday
